import Mathlib

/-!
Verification of the note_taker backend's core: the Result envelope
(`backend/utils/result.py`), the generic SQLite repository
(`backend/sqlite_repository.py`) over the four tables declared in
`backend/database.py`, and the session-note service
(`backend/services/session_note_service.py`).

Modelling conventions:
* Records and rows are untyped field lists, mirroring pydantic's
  `model_dump` dictionaries and SQLAlchemy row mappings.  A `Value` is an
  SQLite-storable scalar; a nullable cell is an `Option Value`.
* Datetimes are abstract instants (`Value.dt` over `Nat`); their ISO
  rendering is kept abstract.
* SQLite assigns the integer primary key of these tables by the rowid
  rule (the tables are declared without the `AUTOINCREMENT` keyword —
  SQLAlchemy only emits it under `sqlite_autoincrement=True`): a new row
  gets one more than the largest id currently in the table, 1 when the
  table is empty.
* Storage faults (connectivity, NOT NULL violations) are not modelled;
  every operation below is the non-raising path of the Python code.
-/

namespace NoteTaker

/-- A scalar value storable in an SQLite cell: integer, text, or an
abstract datetime instant. -/
inductive Value where
  | int (n : Int)
  | str (s : String)
  | dt (t : Nat)
deriving DecidableEq, Repr

/-- Python truthiness of a scalar: `0` and `""` are falsy, a datetime is
always truthy. -/
def Value.truthy : Value → Bool
  | .int n => n ≠ 0
  | .str s => s ≠ ""
  | .dt _ => true

/-- Python's `str()` on a scalar (datetime rendering kept abstract). -/
def Value.pyStr : Value → String
  | .int n => toString n
  | .str s => s
  | .dt t => toString t

/-- `str()` applied to a possibly-`None` value, as in an f-string. -/
def pyStrOpt : Option Value → String
  | none => "None"
  | some v => v.pyStr

abbrev Field := String

/-- Dictionary lookup on an association list of fields (first binding
wins, as for a Python `dict` built left to right without duplicates). -/
def lookupF (c : Field) : List (Field × β) → Option β
  | [] => none
  | (k, v) :: rest => if k = c then some v else lookupF c rest

/-- A full table row over the non-id columns: every column is present,
nullable ones may hold `none` (SQL NULL). -/
abbrev Row := List (Field × Option Value)

/-- A pydantic model instance: an optional `id` field plus the remaining
fields in declaration order, each possibly `None`. -/
structure Model where
  id : Option Nat
  fields : List (Field × Option Value)
deriving DecidableEq, Repr

/-! ## The Result envelope (`backend/utils/result.py`) -/

/-- `Result`: success flag, optional payload, optional error message and
HTTP status code, as stored by `Result.__init__`. -/
structure Result (α : Type) where
  success : Bool
  data : Option α
  error : Option String
  status_code : Nat
deriving DecidableEq, Repr

/-- `Result.__init__(success, data=None, error=None, status_code=None)`:
data is kept only on success, error only on failure, and a missing (or
zero, hence falsy) status code defaults to 200 on success, 500 on
failure. -/
def Result.init (success : Bool) (data : Option α) (error : Option String)
    (status_code : Option Nat) : Result α :=
  { success := success
    data := if success then data else none
    error := if success then none else error
    status_code :=
      match status_code with
      | some c => if c ≠ 0 then c else if success then 200 else 500
      | none => if success then 200 else 500 }

/-- `Result.success_result(data=None)`; pass `none` for the omitted
argument. -/
def Result.success_result (data : Option α) : Result α :=
  Result.init true data none none

/-- `Result.error_result(error, status_code=400)`; pass `none` for an
omitted status code (Python then uses the declared default 400). -/
def Result.error_result (error : String) (status_code : Option Nat) : Result α :=
  Result.init false none (some error) (some (status_code.getD 400))

/-- A value stored in the dictionary produced by `Result.to_dict`. -/
inductive DVal (α : Type) where
  | bool (b : Bool)
  | nat (n : Nat)
  | payload (d : Option α)
  | err (e : Option String)
deriving DecidableEq, Repr

/-- `Result.to_dict`: `{success, status_code}` plus `data` on success or
`error` on failure, in insertion order. -/
def Result.to_dict (r : Result α) : List (String × DVal α) :=
  let base := [("success", DVal.bool r.success), ("status_code", DVal.nat r.status_code)]
  if r.success then base ++ [("data", DVal.payload r.data)]
  else base ++ [("error", DVal.err r.error)]

/-- In Python the failure branch of `update`/`delete` returns the
`get_by_id` failure object itself; re-typing it preserves the flag, the
message and the code (the payload of a failure is `None` anyway). -/
def Result.castErr (r : Result α) : Result β :=
  { success := r.success, data := none, error := r.error, status_code := r.status_code }

/-! ## The generic repository (`backend/sqlite_repository.py`) -/

/-- `BaseSQLiteRepository._model_to_dict`:
`model.model_dump(exclude={'id'}, exclude_none=True)` — the non-id
fields whose value is not `None`. -/
def model_to_dict (m : Model) : List (Field × Value) :=
  m.fields.filterMap (fun p => p.2.map (fun v => (p.1, v)))

/-- `BaseSQLiteRepository._row_to_model`: rebuild a model from a fetched
row (the id column plus every schema column). -/
def row_to_model (i : Nat) (r : Row) : Model :=
  { id := some i, fields := r }

/-- One backing table: its non-id column names and its rows keyed by the
integer primary key. -/
structure Table where
  schema : List Field
  rows : List (Nat × Row)
deriving DecidableEq, Repr

/-- The SQLite rowid rule for these tables (no `AUTOINCREMENT` keyword in
the emitted DDL): the next id is one more than the largest id currently
in the table, 1 when empty. -/
def nextId (rows : List (Nat × Row)) : Nat :=
  (rows.map Prod.fst).foldr Nat.max 0 + 1

/-- An SQL `INSERT` of the listed column values: every schema column not
supplied becomes NULL. -/
def rowOfInsert (schema : List Field) (data : List (Field × Value)) : Row :=
  schema.map (fun c => (c, lookupF c data))

/-- An SQL `UPDATE ... SET` of the listed column values on one row:
columns named in `data` are overwritten, the rest keep their stored
value. -/
def patchRow (r : Row) (data : List (Field × Value)) : Row :=
  r.map (fun p =>
    match lookupF p.1 data with
    | some v => (p.1, some v)
    | none => p)

/-- `BaseSQLiteRepository.get_by_id`: fetch the row with the given id;
404 failure when absent. -/
def Table.get_by_id (t : Table) (record_id : Nat) : Result Model :=
  match t.rows.find? (fun p => p.1 = record_id) with
  | none => Result.error_result s!"Record with ID {record_id} not found" (some 404)
  | some p => Result.success_result (some (row_to_model p.1 p.2))

/-- `BaseSQLiteRepository.get_all`: every row, in storage order. -/
def Table.get_all (t : Table) : Result (List Model) :=
  Result.success_result (some (t.rows.map (fun p => row_to_model p.1 p.2)))

/-- `BaseSQLiteRepository.create`: insert `_model_to_dict(model)` and
return the storage-assigned primary key. -/
def Table.create (t : Table) (m : Model) : Result Nat × Table :=
  let data := model_to_dict m
  let rid := nextId t.rows
  (Result.success_result (some rid),
   { t with rows := t.rows ++ [(rid, rowOfInsert t.schema data)] })

/-- `BaseSQLiteRepository.update`: propagate the `get_by_id` failure on
an absent id; otherwise `UPDATE` the present fields of the model and
return a payload-free success. -/
def Table.update (t : Table) (record_id : Nat) (m : Model) : Result Unit × Table :=
  let check := t.get_by_id record_id
  if check.success then
    let data := model_to_dict m
    (Result.success_result none,
     { t with rows := t.rows.map (fun p =>
         if p.1 = record_id then (p.1, patchRow p.2 data) else p) })
  else (check.castErr, t)

/-- `BaseSQLiteRepository.delete`: propagate the `get_by_id` failure on
an absent id; otherwise remove the row and return a payload-free
success. -/
def Table.delete (t : Table) (record_id : Nat) : Result Unit × Table :=
  let check := t.get_by_id record_id
  if check.success then
    (Result.success_result none,
     { t with rows := t.rows.filter (fun p => ¬ p.1 = record_id) })
  else (check.castErr, t)

/-! ## The session-note service (`backend/services/session_note_service.py`)
over the four tables of `backend/database.py`. -/

/-- The persisted state: the four tables. -/
structure DB where
  bcbas : Table
  patients : Table
  clinics : Table
  session_notes : Table
deriving DecidableEq, Repr

/-- The `SessionNote` pydantic model built inside
`create_with_validation` (fields in declaration order, `id` omitted). -/
def mkSessionNote (bcba patient : Nat) (clinic : Option Nat) (apt : Nat)
    (duration : Option Int) (notes : String) : Model :=
  { id := none
    fields := [("bcba", some (Value.int bcba)),
               ("patient", some (Value.int patient)),
               ("clinic", clinic.map (fun c => Value.int c)),
               ("apt_date", some (Value.dt apt)),
               ("duration", duration.map (fun d => Value.int d)),
               ("notes", some (Value.str notes))] }

/-- `SessionNoteService.create_with_validation`: check the BCBA, then the
patient, then (only when supplied) the clinic, each failure
short-circuiting with a 400; on success insert the note, defaulting the
appointment time to the current instant `now`. -/
def create_with_validation (db : DB) (bcba patient_id : Nat) (notes : String)
    (clinic_id : Option Nat) (apt_date : Option Nat) (duration : Option Int)
    (now : Nat) : Result Nat × DB :=
  if (db.bcbas.get_by_id bcba).success then
    if (db.patients.get_by_id patient_id).success then
      let proceed :=
        let note := mkSessionNote bcba patient_id clinic_id (apt_date.getD now)
          duration notes
        let r := db.session_notes.create note
        (r.1, { db with session_notes := r.2 })
      match clinic_id with
      | some cid =>
        if (db.clinics.get_by_id cid).success then proceed
        else (Result.error_result s!"Clinic with ID {cid} does not exist" (some 400), db)
      | none => proceed
    else (Result.error_result s!"Patient with ID {patient_id} does not exist" (some 400), db)
  else (Result.error_result s!"BCBA with ID {bcba} does not exist" (some 400), db)

/-- The SQL predicate `column == value` on a row: true only when the
column holds that non-NULL value. -/
def colEq (c : Field) (v : Value) (r : Row) : Bool :=
  match lookupF c r with
  | some (some w) => w = v
  | _ => false

/-- `SessionNoteService.get_by_bcba`: all notes whose `bcba` column
equals the given id, always a success. -/
def get_by_bcba (db : DB) (bcba_id : Nat) : Result (List Model) :=
  Result.success_result (some
    ((db.session_notes.rows.filter (fun p => colEq "bcba" (Value.int bcba_id) p.2)).map
      (fun p => row_to_model p.1 p.2)))

/-- The detail dictionary built by the `_with_details` reads. -/
structure NoteDetails where
  id : Nat
  bcba : Option Value
  patient : Option Value
  clinic : Option Value
  apt_date : Option Value
  duration : Option Value
  notes : Option Value
  patient_name : String
  clinic_name : Value
  bcba_name : Option Value
deriving DecidableEq, Repr

/-- The NULL-flattening read of one column of a row (`row.<column>`). -/
def cell (c : Field) (r : Row) : Option Value :=
  (lookupF c r).join

/-- One joined result row: inner joins on the patient and BCBA (the row
is dropped when either referenced record is missing), outer join on the
clinic (a missing or NULL clinic leaves the joined name NULL), then the
dictionary of the Python code, with `clinic_name` falling back to the
sentinel "No Clinic" on a falsy joined name. -/
def noteDetails (db : DB) (i : Nat) (r : Row) : Option NoteDetails :=
  (cell "patient" r).bind fun pid =>
  (db.patients.rows.find? (fun p => Value.int p.1 = pid)).bind fun prow =>
  (cell "bcba" r).bind fun bid =>
  (db.bcbas.rows.find? (fun p => Value.int p.1 = bid)).bind fun brow =>
  let clinicName : Option Value :=
    (cell "clinic" r).bind fun cid =>
    (db.clinics.rows.find? (fun p => Value.int p.1 = cid)).bind fun crow =>
    cell "name" crow.2
  some { id := i
         bcba := cell "bcba" r
         patient := cell "patient" r
         clinic := cell "clinic" r
         apt_date := cell "apt_date" r
         duration := cell "duration" r
         notes := cell "notes" r
         patient_name := pyStrOpt (cell "first_name" prow.2) ++ " "
           ++ pyStrOpt (cell "last_name" prow.2)
         clinic_name :=
           match clinicName with
           | some v => if v.truthy then v else Value.str "No Clinic"
           | none => Value.str "No Clinic"
         bcba_name := cell "name" brow.2 }

/-- `SessionNoteService.get_by_bcba_with_details`: the joined detail rows
of every note of the given BCBA, always a success. -/
def get_by_bcba_with_details (db : DB) (bcba_id : Nat) : Result (List NoteDetails) :=
  Result.success_result (some
    ((db.session_notes.rows.filter (fun p => colEq "bcba" (Value.int bcba_id) p.2)).filterMap
      (fun p => noteDetails db p.1 p.2)))

/-- `SessionNoteService.get_by_id_with_details`: the joined detail row of
one note; 404 when the join returns nothing. -/
def get_by_id_with_details (db : DB) (note_id : Nat) : Result NoteDetails :=
  match (db.session_notes.rows.filter (fun p => p.1 = note_id)).filterMap
      (fun p => noteDetails db p.1 p.2) with
  | [] => Result.error_result s!"Session note with ID {note_id} not found" (some 404)
  | d :: _ => Result.success_result (some d)

/-! ## Helper lemmas on dictionaries, rows and id assignment -/

/-- Looking up a field that occurs nowhere in an association list gives
nothing. -/
theorem lookupF_eq_none_of_not_mem {β : Type} (c : Field) (l : List (Field × β))
    (h : c ∉ l.map Prod.fst) : lookupF c l = none := by
  induction l with
  | nil => rfl
  | cons p rest ih =>
    obtain ⟨k, v⟩ := p
    simp only [List.map_cons, List.mem_cons, not_or] at h
    simp only [lookupF]
    rw [if_neg (fun hkc => h.1 hkc.symm)]
    exact ih h.2

/-- A field absent from a model's field list is absent from its dumped
dictionary. -/
theorem lookupF_dump_of_not_mem (c : Field) (fs : List (Field × Option Value))
    (h : c ∉ fs.map Prod.fst) :
    lookupF c (fs.filterMap (fun p => p.2.map (fun w => (p.1, w)))) = none := by
  induction fs with
  | nil => rfl
  | cons p rest ih =>
    obtain ⟨k, ov⟩ := p
    simp only [List.map_cons, List.mem_cons, not_or] at h
    cases ov with
    | none => simpa using ih h.2
    | some v =>
      simp only [List.filterMap_cons, Option.map_some]
      simp only [lookupF]
      rw [if_neg (fun hkc => h.1 hkc.symm)]
      exact ih h.2

/-- A present (non-`None`) field of a model is found in its dumped
dictionary with its value, provided field names are unrepeated. -/
theorem lookupF_dump_of_mem_some (c : Field) (v : Value)
    (fs : List (Field × Option Value)) (hnd : (fs.map Prod.fst).Nodup)
    (hmem : (c, some v) ∈ fs) :
    lookupF c (fs.filterMap (fun p => p.2.map (fun w => (p.1, w)))) = some v := by
  induction fs with
  | nil => cases hmem
  | cons p rest ih =>
    obtain ⟨k, ov⟩ := p
    simp only [List.map_cons, List.nodup_cons] at hnd
    rcases List.mem_cons.mp hmem with heq | hrest
    · obtain ⟨rfl, rfl⟩ := Prod.mk.injEq .. ▸ heq
      simp [lookupF]
    · have hck : k ≠ c := by
        intro hkc
        exact hnd.1 (hkc ▸ (List.mem_map_of_mem Prod.fst hrest))
      cases ov with
      | none => simpa using ih hnd.2 hrest
      | some w =>
        simp only [List.filterMap_cons, Option.map_some]
        simp only [lookupF]
        rw [if_neg hck]
        exact ih hnd.2 hrest

/-- A `None` field of a model is dropped by `exclude_none`, so it is
absent from the dumped dictionary, provided field names are
unrepeated. -/
theorem lookupF_dump_of_mem_none (c : Field) (fs : List (Field × Option Value))
    (hnd : (fs.map Prod.fst).Nodup) (hmem : (c, none) ∈ fs) :
    lookupF c (fs.filterMap (fun p => p.2.map (fun w => (p.1, w)))) = none := by
  induction fs with
  | nil => cases hmem
  | cons p rest ih =>
    obtain ⟨k, ov⟩ := p
    simp only [List.map_cons, List.nodup_cons] at hnd
    rcases List.mem_cons.mp hmem with heq | hrest
    · obtain ⟨rfl, rfl⟩ := Prod.mk.injEq .. ▸ heq
      simpa using lookupF_dump_of_not_mem c rest hnd.1
    · have hck : k ≠ c := by
        intro hkc
        exact hnd.1 (hkc ▸ (List.mem_map_of_mem Prod.fst hrest))
      cases ov with
      | none => simpa using ih hnd.2 hrest
      | some w =>
        simp only [List.filterMap_cons, Option.map_some]
        simp only [lookupF]
        rw [if_neg hck]
        exact ih hnd.2 hrest

/-- Inserting the dumped dictionary of a model over a schema that lists
exactly the model's field names reproduces the model's fields: omitted
columns come back as NULL. -/
theorem rowOfInsert_dump (fs : List (Field × Option Value))
    (hnd : (fs.map Prod.fst).Nodup) :
    rowOfInsert (fs.map Prod.fst)
      (fs.filterMap (fun p => p.2.map (fun w => (p.1, w)))) = fs := by
  induction fs with
  | nil => rfl
  | cons p rest ih =>
    obtain ⟨k, ov⟩ := p
    simp only [List.map_cons, List.nodup_cons] at hnd
    have htail : ∀ c ∈ rest.map Prod.fst,
        (c, lookupF c (((k, ov) :: rest).filterMap
          (fun p => p.2.map (fun w => (p.1, w))))) =
        (c, lookupF c (rest.filterMap (fun p => p.2.map (fun w => (p.1, w))))) := by
      intro c hc
      have hck : k ≠ c := fun hkc => hnd.1 (hkc ▸ hc)
      cases ov with
      | none => simp
      | some w =>
        simp only [List.filterMap_cons, Option.map_some]
        simp only [lookupF]
        rw [if_neg hck]
    have hhead : lookupF k (((k, ov) :: rest).filterMap
        (fun p => p.2.map (fun w => (p.1, w)))) = ov := by
      cases ov with
      | none => simpa using lookupF_dump_of_not_mem k rest hnd.1
      | some w => simp [lookupF]
    calc rowOfInsert (((k, ov) :: rest).map Prod.fst)
          (((k, ov) :: rest).filterMap (fun p => p.2.map (fun w => (p.1, w))))
        = (k, lookupF k (((k, ov) :: rest).filterMap
            (fun p => p.2.map (fun w => (p.1, w))))) ::
          (rest.map Prod.fst).map (fun c => (c, lookupF c (((k, ov) :: rest).filterMap
            (fun p => p.2.map (fun w => (p.1, w)))))) := by
          simp [rowOfInsert]
      _ = (k, ov) :: (rest.map Prod.fst).map
            (fun c => (c, lookupF c (rest.filterMap
              (fun p => p.2.map (fun w => (p.1, w)))))) := by
          rw [hhead, List.map_congr_left (fun c hc => htail c hc)]
      _ = (k, ov) :: rest := by rw [show (rest.map Prod.fst).map
            (fun c => (c, lookupF c (rest.filterMap
              (fun p => p.2.map (fun w => (p.1, w)))))) =
            rowOfInsert (rest.map Prod.fst) (rest.filterMap
              (fun p => p.2.map (fun w => (p.1, w)))) from rfl, ih hnd.2]

/-- A column named in the update dictionary is overwritten by the SQL
`UPDATE`. -/
theorem patchRow_mem_of_lookup_some (r : Row) (data : List (Field × Value))
    (c : Field) (old : Option Value) (v : Value)
    (hmem : (c, old) ∈ r) (hl : lookupF c data = some v) :
    (c, some v) ∈ patchRow r data := by
  have := List.mem_map_of_mem (fun p : Field × Option Value =>
    match lookupF p.1 data with
    | some v => (p.1, some v)
    | none => p) hmem
  simpa [patchRow, hl] using this

/-- A column not named in the update dictionary keeps its stored
value. -/
theorem patchRow_mem_of_lookup_none (r : Row) (data : List (Field × Value))
    (c : Field) (old : Option Value)
    (hmem : (c, old) ∈ r) (hl : lookupF c data = none) :
    (c, old) ∈ patchRow r data := by
  have := List.mem_map_of_mem (fun p : Field × Option Value =>
    match lookupF p.1 data with
    | some v => (p.1, some v)
    | none => p) hmem
  simpa [patchRow, hl] using this

/-- Every element of a list of naturals is bounded by its running
maximum. -/
theorem le_foldr_max (l : List Nat) (j : Nat) (hj : j ∈ l) :
    j ≤ l.foldr Nat.max 0 := by
  induction l with
  | nil => cases hj
  | cons a rest ih =>
    simp only [List.foldr_cons]
    rcases List.mem_cons.mp hj with rfl | h
    · exact Nat.le_max_left _ _
    · exact le_trans (ih h) (Nat.le_max_right _ _)

/-- The rowid rule assigns an id strictly above every id currently in the
table. -/
theorem lt_nextId (rows : List (Nat × Row)) (j : Nat)
    (hj : j ∈ rows.map Prod.fst) : j < nextId rows :=
  Nat.lt_succ_of_le (le_foldr_max (rows.map Prod.fst) j hj)

/-- `find?` on a table extended with a row under an id no existing row
carries returns the new row. -/
theorem find?_append_fresh (rows : List (Nat × Row)) (rid : Nat) (row : Row)
    (h : ∀ j ∈ rows.map Prod.fst, j ≠ rid) :
    (rows ++ [(rid, row)]).find? (fun p => p.1 = rid) = some (rid, row) := by
  induction rows with
  | nil => simp [List.find?]
  | cons p rest ih =>
    have hp : ¬ (p.1 = rid) := h p.1 (by simp)
    rw [List.cons_append, List.find?_cons_of_neg _ (by simpa using hp)]
    exact ih (fun j hj => h j (by simp [hj]))

/-- A success freshly built by `success_result` is never equal to a
failure built by `error_result` (their success flags differ). -/
theorem error_result_ne_success_result {α : Type} (e : String) (sc : Option Nat)
    (d : Option α) :
    (Result.error_result e sc : Result α) ≠ Result.success_result d := by
  intro h
  have := congrArg Result.success h
  simp [Result.error_result, Result.success_result, Result.init] at this

/-- Payloads of equal `success_result`s are equal. -/
theorem success_result_data_inj {α : Type} (x y : α)
    (h : (Result.success_result (some x) : Result α) = Result.success_result (some y)) :
    x = y := by
  have := congrArg Result.data h
  simpa [Result.success_result, Result.init] using this

/-! ## Theorems -/

/-- C10: `Result.__init__` keeps the payload only on success and the
error only on failure, so no `Result` carries both, whatever arguments
were supplied. -/
theorem result_init_payload_error_exclusive (α : Type) (d : Option α)
    (e : Option String) (sc : Option Nat) :
    (Result.init true d e sc).error = none ∧ (Result.init false d e sc).data = none := by
  constructor <;> rfl

/-- C7: `to_dict` always emits the `success` and `status_code` keys plus
exactly one of `data` / `error` — never both, never neither. -/
theorem to_dict_key_shape (α : Type) (r : Result α) :
    "success" ∈ (r.to_dict).map Prod.fst ∧
    "status_code" ∈ (r.to_dict).map Prod.fst ∧
    (("data" ∈ (r.to_dict).map Prod.fst ∧ "error" ∉ (r.to_dict).map Prod.fst) ∨
     ("error" ∈ (r.to_dict).map Prod.fst ∧ "data" ∉ (r.to_dict).map Prod.fst)) := by
  cases h : r.success <;> simp [Result.to_dict, h]

/-- C6 (counterexample): the named failure constructor with no explicit
status code yields status 400, not 500 — its declared default is 400. -/
theorem error_result_default_not_500 :
    ¬ ((Result.error_result "boom" none : Result Unit).status_code = 500) := by
  decide

/-- C6 (amended): `error_result` without an explicit status code uses its
declared default 400; the 500 fallback applies to a failure built
directly with no status code at all; `success_result` defaults to
200. -/
theorem result_default_status_codes (α : Type) (e : String) (d : Option α) :
    (Result.error_result e none : Result α).status_code = 400 ∧
    (Result.init false d (some e) none : Result α).status_code = 500 ∧
    (Result.success_result d : Result α).status_code = 200 := by
  refine ⟨rfl, rfl, rfl⟩

/-- C1: `create_with_validation` checks the BCBA first, then the patient,
then (only when supplied) the clinic; the first absent reference
short-circuits with a 400 failure naming that reference, leaving the
state untouched — so when several references are invalid at once only
the BCBA message is reported. -/
theorem create_with_validation_check_order (db : DB) (bcba patient_id : Nat)
    (notes : String) (clinic_id : Option Nat) (apt_date : Option Nat)
    (duration : Option Int) (now : Nat) :
    ((db.bcbas.get_by_id bcba).success = false →
      create_with_validation db bcba patient_id notes clinic_id apt_date duration now =
        (Result.error_result s!"BCBA with ID {bcba} does not exist" (some 400), db)) ∧
    ((db.bcbas.get_by_id bcba).success = true →
     (db.patients.get_by_id patient_id).success = false →
      create_with_validation db bcba patient_id notes clinic_id apt_date duration now =
        (Result.error_result s!"Patient with ID {patient_id} does not exist" (some 400), db)) ∧
    (∀ cid, clinic_id = some cid →
     (db.bcbas.get_by_id bcba).success = true →
     (db.patients.get_by_id patient_id).success = true →
     (db.clinics.get_by_id cid).success = false →
      create_with_validation db bcba patient_id notes clinic_id apt_date duration now =
        (Result.error_result s!"Clinic with ID {cid} does not exist" (some 400), db)) := by
  refine ⟨fun h1 => ?_, fun h1 h2 => ?_, fun cid hc h1 h2 h3 => ?_⟩ <;>
    simp [create_with_validation, h1]
  · simp [h2]
  · simp [h2, hc, h3]

/-- A row with name column only, as stored in the `bcbas` table. -/
def nameRow (n : String) : Row := [("name", some (Value.str n))]

/-- Concrete state for the BCBA-absent branch: everything empty. -/
def dbAllEmpty : DB :=
  ⟨⟨["name"], []⟩, ⟨["first_name", "last_name", "DOB", "ICD", "address"], []⟩,
   ⟨["name", "address"], []⟩,
   ⟨["bcba", "patient", "clinic", "apt_date", "duration", "notes"], []⟩⟩

/-- Concrete state with BCBA 1 but no patients. -/
def dbBcbaOnly : DB :=
  { dbAllEmpty with bcbas := ⟨["name"], [(1, nameRow "Dr. A")]⟩ }

/-- Concrete state with BCBA 1 and patient 1 but no clinics. -/
def dbBcbaPatient : DB :=
  { dbBcbaOnly with patients :=
      ⟨["first_name", "last_name", "DOB", "ICD", "address"],
       [(1, [("first_name", some (Value.str "John")),
             ("last_name", some (Value.str "Doe")),
             ("DOB", some (Value.dt 0)), ("ICD", none), ("address", none)])]⟩ }

/-- C1 witness: each of the three short-circuit branches observed on a
concrete state where later references are also invalid. -/
theorem create_with_validation_check_order_witness :
    create_with_validation dbAllEmpty 1 1 "n" (some 2) none none 0 =
      (Result.error_result "BCBA with ID 1 does not exist" (some 400), dbAllEmpty) ∧
    create_with_validation dbBcbaOnly 1 1 "n" (some 2) none none 0 =
      (Result.error_result "Patient with ID 1 does not exist" (some 400), dbBcbaOnly) ∧
    create_with_validation dbBcbaPatient 1 1 "n" (some 2) none none 0 =
      (Result.error_result "Clinic with ID 2 does not exist" (some 400), dbBcbaPatient) :=
  ⟨(create_with_validation_check_order dbAllEmpty 1 1 "n" (some 2) none none 0).1
      (by decide),
   (create_with_validation_check_order dbBcbaOnly 1 1 "n" (some 2) none none 0).2.1
      (by decide) (by decide),
   (create_with_validation_check_order dbBcbaPatient 1 1 "n" (some 2) none none 0).2.2
      2 rfl (by decide) (by decide) (by decide)⟩

/-- C8: when no stored session note carries the given BCBA id — in
particular when no BCBA record with that id even exists — `get_by_bcba`
returns a success carrying the empty list, not a failure. -/
theorem get_by_bcba_zero_notes (db : DB) (bcba_id : Nat)
    (h : ∀ p ∈ db.session_notes.rows, colEq "bcba" (Value.int bcba_id) p.2 = false) :
    get_by_bcba db bcba_id = Result.success_result (some []) := by
  unfold get_by_bcba
  have hf : db.session_notes.rows.filter
      (fun p => colEq "bcba" (Value.int bcba_id) p.2) = [] := by
    simp only [List.filter_eq_nil_iff]
    intro p hp
    simp [h p hp]
  rw [hf]
  rfl

/-- Concrete state with one note belonging to BCBA 1. -/
def dbOneNote : DB :=
  { dbBcbaPatient with session_notes :=
      ⟨["bcba", "patient", "clinic", "apt_date", "duration", "notes"],
       [(1, [("bcba", some (Value.int 1)), ("patient", some (Value.int 1)),
             ("clinic", none), ("apt_date", some (Value.dt 3)),
             ("duration", some (Value.int 60)), ("notes", some (Value.str "x"))])]⟩ }

/-- C8 witness: BCBA id 7 has no record and no notes in `dbOneNote`, and
the lookup returns `Success([])`. -/
theorem get_by_bcba_zero_notes_witness :
    get_by_bcba dbOneNote 7 = Result.success_result (some []) :=
  get_by_bcba_zero_notes dbOneNote 7 (by decide)

/-- C2: on an existing id, `update` returns a payload-free success and
performs a sparse patch: every present non-null non-id field of the
replacement record overwrites the stored column, every null or absent
field leaves the stored column untouched, and every other row is
unchanged. -/
theorem update_sparse_patch (t : Table) (record_id : Nat) (m : Model) (r : Row)
    (hrow : (record_id, r) ∈ t.rows)
    (hnd : (m.fields.map Prod.fst).Nodup) :
    (t.update record_id m).1 = Result.success_result none ∧
    ∃ r', (record_id, r') ∈ (t.update record_id m).2.rows ∧
      (∀ c v old, (c, some v) ∈ m.fields → (c, old) ∈ r → (c, some v) ∈ r') ∧
      (∀ c old, (c, none) ∈ m.fields → (c, old) ∈ r → (c, old) ∈ r') ∧
      (∀ c old, c ∉ m.fields.map Prod.fst → (c, old) ∈ r → (c, old) ∈ r') ∧
      (∀ j q, (j, q) ∈ t.rows → j ≠ record_id →
        (j, q) ∈ (t.update record_id m).2.rows) := by
  have hsucc : (t.get_by_id record_id).success = true := by
    unfold Table.get_by_id
    cases hf : t.rows.find? (fun p => p.1 = record_id) with
    | none =>
      rw [List.find?_eq_none] at hf
      have := hf _ hrow
      simp at this
    | some p => rfl
  have hupd2 : (t.update record_id m).2.rows = t.rows.map (fun p =>
      if p.1 = record_id then (p.1, patchRow p.2 (model_to_dict m)) else p) := by
    simp [Table.update, hsucc]
  refine ⟨by simp [Table.update, hsucc], patchRow r (model_to_dict m), ?_, ?_, ?_, ?_, ?_⟩
  · rw [hupd2]
    have := List.mem_map_of_mem (fun p : Nat × Row =>
      if p.1 = record_id then (p.1, patchRow p.2 (model_to_dict m)) else p) hrow
    simpa using this
  · intro c v old hm hr
    exact patchRow_mem_of_lookup_some r (model_to_dict m) c old v hr
      (lookupF_dump_of_mem_some c v m.fields hnd hm)
  · intro c old hm hr
    exact patchRow_mem_of_lookup_none r (model_to_dict m) c old hr
      (lookupF_dump_of_mem_none c m.fields hnd hm)
  · intro c old hm hr
    exact patchRow_mem_of_lookup_none r (model_to_dict m) c old hr
      (lookupF_dump_of_not_mem c m.fields hm)
  · intro j q hq hj
    rw [hupd2]
    have := List.mem_map_of_mem (fun p : Nat × Row =>
      if p.1 = record_id then (p.1, patchRow p.2 (model_to_dict m)) else p) hq
    simpa [hj] using this

/-- A two-row table over columns a, b, c for exercising `update`. -/
def tUpd : Table := ⟨["a", "b", "c"],
  [(1, [("a", some (Value.int 1)), ("b", some (Value.int 2)), ("c", some (Value.int 3))]),
   (2, [("a", some (Value.int 4)), ("b", none), ("c", none)])]⟩

/-- A replacement record with one present field, one null field, one
absent field. -/
def mUpd : Model := ⟨none, [("a", some (Value.int 9)), ("b", none)]⟩

/-- The stored row of id 1 in `tUpd`. -/
def rUpd : Row :=
  [("a", some (Value.int 1)), ("b", some (Value.int 2)), ("c", some (Value.int 3))]

/-- C2 witness: the sparse-patch theorem applied to the concrete table
`tUpd`, row 1 and replacement `mUpd`. -/
theorem update_sparse_patch_witness :
    (tUpd.update 1 mUpd).1 = Result.success_result none ∧
    ∃ r', (1, r') ∈ (tUpd.update 1 mUpd).2.rows ∧
      (∀ c v old, (c, some v) ∈ mUpd.fields → (c, old) ∈ rUpd → (c, some v) ∈ r') ∧
      (∀ c old, (c, none) ∈ mUpd.fields → (c, old) ∈ rUpd → (c, old) ∈ r') ∧
      (∀ c old, c ∉ mUpd.fields.map Prod.fst → (c, old) ∈ rUpd → (c, old) ∈ r') ∧
      (∀ j q, (j, q) ∈ tUpd.rows → j ≠ 1 → (j, q) ∈ (tUpd.update 1 mUpd).2.rows) :=
  update_sparse_patch tUpd 1 mUpd rUpd (by decide) (by decide)

/-- C3: `create` succeeds with the storage-assigned id, and reading that
id back yields a record equal to the input in every field except `id`
(null fields come back as NULL columns), provided the model's field
names are exactly the table's columns with no repetition. -/
theorem create_get_by_id_roundtrip (t : Table) (m : Model)
    (hschema : m.fields.map Prod.fst = t.schema)
    (hnd : (m.fields.map Prod.fst).Nodup) :
    ∃ rid, (t.create m).1 = Result.success_result (some rid) ∧
      (t.create m).2.get_by_id rid =
        Result.success_result (some { id := some rid, fields := m.fields }) := by
  refine ⟨nextId t.rows, rfl, ?_⟩
  have hrowval : rowOfInsert t.schema (model_to_dict m) = m.fields := by
    rw [← hschema]
    exact rowOfInsert_dump m.fields hnd
  have hfresh : ∀ j ∈ t.rows.map Prod.fst, j ≠ nextId t.rows :=
    fun j hj => Nat.ne_of_lt (lt_nextId t.rows j hj)
  have hfind := find?_append_fresh t.rows (nextId t.rows)
    (rowOfInsert t.schema (model_to_dict m)) hfresh
  unfold Table.get_by_id
  simp only [Table.create]
  rw [hfind, hrowval]
  rfl

/-- A one-row name table for the round-trip witness. -/
def tRt : Table := ⟨["name"], [(1, nameRow "A")]⟩

/-- The record created in the round-trip witness. -/
def mRt : Model := ⟨none, [("name", some (Value.str "B"))]⟩

/-- C3 witness: the round-trip theorem applied to the concrete table
`tRt` and record `mRt`. -/
theorem create_get_by_id_roundtrip_witness :
    ∃ rid, (tRt.create mRt).1 = Result.success_result (some rid) ∧
      (tRt.create mRt).2.get_by_id rid =
        Result.success_result (some { id := some rid, fields := mRt.fields }) :=
  create_get_by_id_roundtrip tRt mRt (by decide) (by decide)

/-- C4: on an id absent from the table, `get_by_id`, `update` and
`delete` all return the same 404 failure, `update` and `delete` leave
the table unchanged, and a repeated `delete` of the same absent id fails
again rather than succeeding. -/
theorem absent_id_operations_404 (t : Table) (record_id : Nat) (m : Model)
    (h : record_id ∉ t.rows.map Prod.fst) :
    t.get_by_id record_id =
      Result.error_result s!"Record with ID {record_id} not found" (some 404) ∧
    t.update record_id m =
      (Result.error_result s!"Record with ID {record_id} not found" (some 404), t) ∧
    t.delete record_id =
      (Result.error_result s!"Record with ID {record_id} not found" (some 404), t) ∧
    ((t.delete record_id).2.delete record_id).1.success = false := by
  have hfind : t.rows.find? (fun p => p.1 = record_id) = none := by
    rw [List.find?_eq_none]
    intro p hp
    simp only [decide_eq_true_eq]
    intro heq
    exact h (heq ▸ List.mem_map_of_mem Prod.fst hp)
  have hget : t.get_by_id record_id =
      Result.error_result s!"Record with ID {record_id} not found" (some 404) := by
    unfold Table.get_by_id
    rw [hfind]
  have hupd : t.update record_id m =
      (Result.error_result s!"Record with ID {record_id} not found" (some 404), t) := by
    unfold Table.update
    rw [hget]
    rfl
  have hdel : t.delete record_id =
      (Result.error_result s!"Record with ID {record_id} not found" (some 404), t) := by
    unfold Table.delete
    rw [hget]
    rfl
  refine ⟨hget, hupd, hdel, ?_⟩
  rw [hdel, hdel]
  rfl

/-- C4 witness: the absent-id theorem applied to a one-row table and the
absent id 5. -/
theorem absent_id_operations_404_witness :
    tRt.get_by_id 5 = Result.error_result "Record with ID 5 not found" (some 404) ∧
    tRt.update 5 mRt = (Result.error_result "Record with ID 5 not found" (some 404), tRt) ∧
    tRt.delete 5 = (Result.error_result "Record with ID 5 not found" (some 404), tRt) ∧
    ((tRt.delete 5).2.delete 5).1.success = false :=
  absent_id_operations_404 tRt 5 mRt (by decide)

/-- Records inserted in the id-reuse scenario. -/
def mIdA : Model := ⟨none, [("name", some (Value.str "A"))]⟩

/-- Second record of the id-reuse scenario. -/
def mIdB : Model := ⟨none, [("name", some (Value.str "B"))]⟩

/-- Third record of the id-reuse scenario. -/
def mIdC : Model := ⟨none, [("name", some (Value.str "C"))]⟩

/-- The empty name table starting the id-reuse scenario. -/
def tIdEmpty : Table := ⟨["name"], []⟩

/-- C5 (counterexample): the rowid rule reassigns a freed maximal id —
create, create, delete the second record, create again: the second and
the fourth `create` both return id 2, so ids are neither monotonically
increasing across the whole sequence nor never reused after a delete. -/
theorem create_id_reused_after_delete :
    ((tIdEmpty.create mIdA).2.create mIdB).1 = Result.success_result (some 2) ∧
    (((((tIdEmpty.create mIdA).2.create mIdB).2.delete 2).2.create mIdC).1 =
      Result.success_result (some 2)) := by
  constructor <;> rfl

/-- C5 (amended): each `create` assigns an id strictly greater than
every id currently in the table (one more than the largest, 1 when
empty); ids of coexisting records are therefore unique and ids grow
monotonically as long as the record holding the largest id is never
deleted — but deleting it frees its id for the very next `create`. -/
theorem create_assigns_id_above_live_rows (t : Table) (m : Model) :
    ∃ rid, (t.create m).1 = Result.success_result (some rid) ∧
      ∀ j ∈ t.rows.map Prod.fst, j < rid :=
  ⟨nextId t.rows, rfl, fun j hj => lt_nextId t.rows j hj⟩

/-- A joined detail row whose `clinic` column is NULL got its clinic name
from an empty outer join, so the sentinel fills in. -/
theorem noteDetails_clinic_none (db : DB) (i : Nat) (r : Row) (d : NoteDetails)
    (hd : noteDetails db i r = some d) (hc : d.clinic = none) :
    d.clinic_name = Value.str "No Clinic" := by
  unfold noteDetails at hd
  cases h1 : cell "patient" r with
  | none => simp [h1] at hd
  | some pid =>
    rw [h1] at hd
    simp only [Option.some_bind] at hd
    cases h2 : db.patients.rows.find? (fun p => Value.int p.1 = pid) with
    | none => rw [h2] at hd; simp at hd
    | some prow =>
      rw [h2] at hd
      simp only [Option.some_bind] at hd
      cases h3 : cell "bcba" r with
      | none => rw [h3] at hd; simp at hd
      | some bid =>
        rw [h3] at hd
        simp only [Option.some_bind] at hd
        cases h4 : db.bcbas.rows.find? (fun p => Value.int p.1 = bid) with
        | none => rw [h4] at hd; simp at hd
        | some brow =>
          rw [h4] at hd
          simp only [Option.some_bind, Option.some.injEq] at hd
          subst hd
          simp only [] at hc ⊢
          rw [hc]
          rfl

/-- C9: in both detail-joined reads, a returned detail row whose note has
a NULL clinic reference carries the sentinel string "No Clinic" as its
clinic name — the field is always a string, never null and never
omitted. -/
theorem details_clinic_null_sentinel (db : DB) :
    (∀ note_id d, get_by_id_with_details db note_id = Result.success_result (some d) →
      d.clinic = none → d.clinic_name = Value.str "No Clinic") ∧
    (∀ bcba_id l, get_by_bcba_with_details db bcba_id = Result.success_result (some l) →
      ∀ d ∈ l, d.clinic = none → d.clinic_name = Value.str "No Clinic") := by
  constructor
  · intro note_id d hres hc
    unfold get_by_id_with_details at hres
    cases hm : (db.session_notes.rows.filter (fun p => p.1 = note_id)).filterMap
        (fun p => noteDetails db p.1 p.2) with
    | nil =>
      rw [hm] at hres
      exact absurd hres (error_result_ne_success_result _ _ _)
    | cons d0 rest =>
      rw [hm] at hres
      obtain rfl : d0 = d := success_result_data_inj d0 d hres
      have hd0 : d0 ∈ (db.session_notes.rows.filter (fun p => p.1 = note_id)).filterMap
          (fun p => noteDetails db p.1 p.2) := by
        rw [hm]; exact List.mem_cons_self _ _
      obtain ⟨p, _, hnd⟩ := List.mem_filterMap.mp hd0
      exact noteDetails_clinic_none db p.1 p.2 d0 hnd hc
  · intro bcba_id l hres d hd hc
    unfold get_by_bcba_with_details at hres
    have hl := success_result_data_inj _ _ hres
    rw [← hl] at hd
    obtain ⟨p, _, hnd⟩ := List.mem_filterMap.mp hd
    exact noteDetails_clinic_none db p.1 p.2 d hnd hc

/-- The detail row returned for the clinic-less note of `dbOneNote`. -/
def dNoClinic : NoteDetails :=
  { id := 1, bcba := some (Value.int 1), patient := some (Value.int 1),
    clinic := none, apt_date := some (Value.dt 3),
    duration := some (Value.int 60), notes := some (Value.str "x"),
    patient_name := "John Doe", clinic_name := Value.str "No Clinic",
    bcba_name := some (Value.str "Dr. A") }

/-- C9 witness: both detail reads on `dbOneNote` (whose one note has a
NULL clinic) return `dNoClinic`, and the sentinel theorem applies to
it. -/
theorem details_clinic_null_sentinel_witness :
    get_by_id_with_details dbOneNote 1 = Result.success_result (some dNoClinic) ∧
    get_by_bcba_with_details dbOneNote 1 = Result.success_result (some [dNoClinic]) ∧
    dNoClinic.clinic = none ∧
    dNoClinic.clinic_name = Value.str "No Clinic" :=
  ⟨by decide, by decide, by decide,
   (details_clinic_null_sentinel dbOneNote).1 1 dNoClinic (by decide) (by decide)⟩

end NoteTaker
